import Mathlib

/-!
Shallow embedding of `src/vt/iterator.py` (the `Iterator` class of vt-py):
a cursor-based pagination iterator over a paginated HTTP collection endpoint.

Modelling conventions:
* JSON values are the inductive `Json` below; `Json.get` models `dict.get`
  (returning `none` for non-objects; the wire contract only sends objects
  where the code calls `.get`).
* Python exceptions are values of `PyErr`; an operation on the iterator is a
  function `Iterator → Except PyErr α × Iterator` returning the result (or
  the raised exception) together with the post-state of the mutable object —
  on an exception the returned state is whatever the mutations performed
  before the raise left behind, exactly as in Python.
* The Transport collaborator (`client.get_json` / `get_json_async`, an
  external interface per the spec) is a function from path and assembled
  query parameters to a JSON response or a transport error.
* `StopIteration` and `StopAsyncIteration` are both rendered as
  `PyErr.stopIteration`, the end-of-sequence signal of the spec's taxonomy.
* Machine integers do not overflow here (Python ints are unbounded); counts
  and offsets are `Nat` (the offset parsed from a resumption cursor follows
  the last `-`, so its digit string cannot carry a minus sign).
-/

/-- JSON values, as decoded by the transport layer. -/
inductive Json where
  | null
  | str (s : String)
  | num (n : Int)
  | bool (b : Bool)
  | arr (elems : List Json)
  | obj (fields : List (String × Json))

/-- Models Python `dict.get(key)` on a decoded JSON value: field lookup on an
object, `none` (i.e. Python `None` / `AttributeError` territory) otherwise. -/
def Json.get (j : Json) (key : String) : Option Json :=
  match j with
  | .obj fields => (fields.find? (fun p => p.1 == key)).map (fun p => p.2)
  | _ => none

/-- Python exceptions raised (or signalled) by the iterator code. `valueError`
covers both `InvalidArgument` and `InvalidResponse` of the spec's taxonomy:
the source raises `ValueError` with distinguishing messages for both. -/
inductive PyErr where
  | valueError (msg : String)
  | transportError (msg : String)
  | indexError
  | stopIteration

/-- Modelled from the spec: the Object Factory collaborator
(`Object.from_dict` of `vt/object.py`, whose code is not under `src/`):
`from_record(raw) -> DomainObject`, assumed total over well-formed records.
We model the domain object as a wrapper around the raw record. -/
structure Object where
  raw : Json

/-- Modelled from the spec: the factory mapping a raw record to a domain
object, total over records. -/
def Object.from_dict (d : Json) : Object := ⟨d⟩

/-- The Transport collaborator: `fetch_json(path, params)`. The async variant
has the identical result contract (spec §6), so a single function models the
sequence of responses both variants observe. -/
def Server : Type := String → List (String × Json) → Except PyErr Json

/-- Python truthiness of an optional string (`None` and `""` are falsy). -/
def optTruthy : Option String → Bool
  | none => false
  | some s => !(s == "")

/-- Python truthiness of the `_limit` attribute (`None` and `0` are falsy). -/
def limitTruthy : Option Nat → Bool
  | none => false
  | some l => !(l == 0)

/-- Digit accumulation for `int()` over the characters of a decimal string. -/
def parseDigitsAux : List Char → Nat → Option Nat
  | [], acc => some acc
  | c :: rest, acc =>
    if c.isDigit then parseDigitsAux rest (acc * 10 + (c.toNat - 48)) else none

/-- Nonempty all-digit strings parse; anything else raises in `int()`. -/
def parseDigits : List Char → Option Nat
  | [] => none
  | cs => parseDigitsAux cs 0

/-- Models Python `int(s)` for the offset substring of a resumption cursor:
optional surrounding spaces and an optional leading `+`, then decimal digits
(the substring follows the last `-`, so no minus sign can occur; digit-group
underscores are not modelled). `none` models the raised `ValueError`. -/
def parsePyNat (s : String) : Option Nat :=
  let cs := ((s.data.dropWhile (fun c => c == ' ')).reverse.dropWhile
    (fun c => c == ' ')).reverse
  match cs with
  | '+' :: rest => parseDigits rest
  | _ => parseDigits cs

/-- Split a character list at the last `-`: returns the parts before and
after it, or `none` when no `-` occurs. -/
def rpartDash : List Char → Option (List Char × List Char)
  | [] => none
  | c :: rest =>
    match rpartDash rest with
    | some (a, b) => some (c :: a, b)
    | none => if c = '-' then some ([], rest) else none

/-- Models Python `s.rpartition('-')`: `(before, after)` at the last `-`, and
`("", s)` when `-` is absent (as in Python, where the head of the triple is
then empty). -/
def rpartitionDash (s : String) : String × String :=
  match rpartDash s.data with
  | some (a, b) => (String.mk a, String.mk b)
  | none => ("", s)

/-- Decimal digits of `n`, most significant first (first argument is fuel,
always instantiated at `n + 1`). -/
def natDigits : Nat → Nat → List Char
  | 0, _ => []
  | fuel + 1, n =>
    if n < 10 then [Char.ofNat (48 + n)]
    else natDigits fuel (n / 10) ++ [Char.ofNat (48 + n % 10)]

/-- Models Python `str(n)` for a non-negative integer. -/
def natToStr (n : Nat) : String := String.mk (natDigits (n + 1) n)

/-- The mutable state of a `vt.Iterator` instance: `_path`, `_params`,
`_batch_size`, `_limit`, `_items`, `_count`, `_server_cursor` and
`_batch_cursor`. -/
structure Iterator where
  path : String
  params : List (String × Json)
  batch_size : Nat
  limit : Option Nat
  items : List Json
  count : Nat
  server_cursor : Option String
  batch_cursor : Nat

/-- The fresh state assembled by the first half of `Iterator.__init__`,
before the optional resumption cursor is parsed. -/
def mkFresh (path : String) (params : List (String × Json)) (limit : Option Nat)
    (batch_size : Nat) : Iterator :=
  { path := path, params := params, batch_size := batch_size, limit := limit,
    items := [], count := 0, server_cursor := none, batch_cursor := 0 }

/-- Models `Iterator.__init__` (src/vt/iterator.py, lines 60-90). The
constructor takes no transport handle in this embedding: the source makes no
network call during construction, so none can be expressed here. Checks, in
source order: reserved key `cursor`, reserved key `limit`, then — only when
the `cursor` argument is truthy (non-`None` and nonempty, per `if cursor:`) —
the resumption-cursor split on the last `-` and the integer parse of the
offset. -/
def Iterator.init (path : String) (params : List (String × Json))
    (cursor : Option String) (limit : Option Nat) (batch_size : Nat) :
    Except PyErr Iterator :=
  if ((params.find? (fun p => p.1 == "cursor")).isSome) then
    .error (.valueError "Do not pass \"cursor\" as a path param")
  else if ((params.find? (fun p => p.1 == "limit")).isSome) then
    .error (.valueError "Do not pass \"limit\" as a path param")
  else
    match cursor with
    | none => .ok (mkFresh path params limit batch_size)
    | some c =>
      if c == "" then .ok (mkFresh path params limit batch_size)
      else
        let (srv, off) := rpartitionDash c
        if srv == "" then .error (.valueError "invalid cursor")
        else
          match parsePyNat off with
          | none => .error (.valueError "invalid cursor")
          | some k =>
            .ok { mkFresh path params limit batch_size with
                  server_cursor := some srv, batch_cursor := k }

/-- Models Python dict assignment `d[k] = v` on the insertion-ordered
parameter mapping: replace in place when the key exists, append otherwise. -/
def setKey (l : List (String × Json)) (k : String) (v : Json) :
    List (String × Json) :=
  if (l.find? (fun p => p.1 == k)).isSome then
    l.map (fun p => if p.1 == k then (k, v) else p)
  else l ++ [(k, v)]

/-- Models `Iterator._build_params` (lines 92-98): copy `_params`, add
`cursor` when `_server_cursor` is truthy, add `limit` when `_batch_size` is
truthy. -/
def Iterator.build_params (it : Iterator) : List (String × Json) :=
  let params := it.params
  let params :=
    if optTruthy it.server_cursor then
      setKey params "cursor" (.str (it.server_cursor.getD ""))
    else params
  let params :=
    if it.batch_size != 0 then setKey params "limit" (.num it.batch_size)
    else params
  params

/-- Models `Iterator._parse_response` (lines 100-105): raise `ValueError`
(the spec's `InvalidResponse`) unless `data` is a list; otherwise return
`data[batch_cursor:]` and `meta.get('cursor')` (where `meta` defaults to the
empty object, and a non-string cursor value — outside the wire contract — is
treated as absent). -/
def Iterator.parse_response (path : String) (json_resp : Json)
    (batch_cursor : Nat) : Except PyErr (List Json × Option String) :=
  match json_resp.get "data" with
  | some (.arr items) =>
    let meta := (json_resp.get "meta").getD (.obj [])
    let cur : Option String :=
      match meta.get "cursor" with
      | some (.str s) => some s
      | _ => none
    .ok (items.drop batch_cursor, cur)
  | _ => .error (.valueError (path ++ " is not a collection"))

/-- Models `Iterator._get_batch` (lines 112-115): one transport request for
`_path` with the assembled parameters, then `_parse_response`. The
`batch_cursor` parameter defaults to 0 in the source and is passed explicitly
here; no call site of the source ever supplies a nonzero value. -/
def Iterator.get_batch (srv : Server) (it : Iterator) (batch_cursor : Nat) :
    Except PyErr (List Json × Option String) :=
  match srv it.path it.build_params with
  | .error e => .error e
  | .ok json_resp => Iterator.parse_response it.path json_resp batch_cursor

/-- Models `Iterator._get_batch_async` (lines 107-110): identical to
`_get_batch` except for how the request suspends (spec §4.3), which a pure
embedding cannot distinguish. -/
def Iterator.get_batch_async (srv : Server) (it : Iterator)
    (batch_cursor : Nat) : Except PyErr (List Json × Option String) :=
  match srv it.path it.build_params with
  | .error e => .error e
  | .ok json_resp => Iterator.parse_response it.path json_resp batch_cursor

/-- Models `item = self._items.pop(0); self._count += 1;
self._batch_cursor += 1; return Object.from_dict(item)` (lines 121-124 and
the identical tails of `__next__` / `__anext__`): `pop(0)` on an empty list
raises `IndexError` leaving the state as is. -/
def Iterator.popStep (it : Iterator) : Except PyErr Object × Iterator :=
  match it.items with
  | [] => (.error .indexError, it)
  | x :: rest =>
    (.ok (Object.from_dict x),
     { it with items := rest, count := it.count + 1,
               batch_cursor := it.batch_cursor + 1 })

/-- Models `Iterator._iterate` (lines 117-124): refill the buffer when
`len(self._items) == 0` (the tuple assignment happens only after the fetch
returns, so a raised fetch leaves the state untouched), reset
`_batch_cursor`, then pop / count / decode. -/
def Iterator.iterate (srv : Server) (it : Iterator) :
    Except PyErr Object × Iterator :=
  if it.items.length == 0 then
    match Iterator.get_batch srv it 0 with
    | .error e => (.error e, it)
    | .ok (newItems, newCur) =>
      Iterator.popStep
        { it with items := newItems, server_cursor := newCur,
                  batch_cursor := 0 }
  else Iterator.popStep it

/-- Models `Iterator._aiterate` (lines 126-133), the async twin of
`_iterate`. -/
def Iterator.aiterate (srv : Server) (it : Iterator) :
    Except PyErr Object × Iterator :=
  if it.items.length == 0 then
    match Iterator.get_batch_async srv it 0 with
    | .error e => (.error e, it)
    | .ok (newItems, newCur) =>
      Iterator.popStep
        { it with items := newItems, server_cursor := newCur,
                  batch_cursor := 0 }
  else Iterator.popStep it

/-- Models `Iterator.__next__` (lines 155-166): eager fetch when nothing was
ever produced and the buffer is empty (note: `_batch_cursor` is NOT reset by
this fetch), then the end-of-sequence guards, then pop / count / decode. -/
def Iterator.next (srv : Server) (it : Iterator) :
    Except PyErr Object × Iterator :=
  match
    (if it.items.isEmpty && it.count == 0 then
      match Iterator.get_batch srv it 0 with
      | .error e => .error e
      | .ok (newItems, newCur) =>
        .ok { it with items := newItems, server_cursor := newCur }
    else .ok it : Except PyErr Iterator)
  with
  | .error e => (.error e, it)
  | .ok it' =>
    if limitTruthy it'.limit then
      if (it'.items.isEmpty && !(it'.count == 0))
          || decide (it'.limit.getD 0 ≤ it'.count) then
        (.error .stopIteration, it')
      else Iterator.popStep it'
    else
      if it'.items.isEmpty && !(it'.count == 0) then
        (.error .stopIteration, it')
      else Iterator.popStep it'

/-- Models `Iterator.__anext__` (lines 168-179), the async twin of
`__next__`; `StopAsyncIteration` is rendered as the same end-of-sequence
signal. -/
def Iterator.anext (srv : Server) (it : Iterator) :
    Except PyErr Object × Iterator :=
  match
    (if it.items.isEmpty && it.count == 0 then
      match Iterator.get_batch_async srv it 0 with
      | .error e => .error e
      | .ok (newItems, newCur) =>
        .ok { it with items := newItems, server_cursor := newCur }
    else .ok it : Except PyErr Iterator)
  with
  | .error e => (.error e, it)
  | .ok it' =>
    if limitTruthy it'.limit then
      if (it'.items.isEmpty && !(it'.count == 0))
          || decide (it'.limit.getD 0 ≤ it'.count) then
        (.error .stopIteration, it')
      else Iterator.popStep it'
    else
      if it'.items.isEmpty && !(it'.count == 0) then
        (.error .stopIteration, it')
      else Iterator.popStep it'

/-- How a run of the `__iter__` / `__aiter__` generator ended: the while
condition became false, an exception propagated out of the generator, or the
modelling fuel ran out (never the case for the fuel bounds proved below). -/
inductive RunOut where
  | finished
  | raised (e : PyErr)
  | fuelOut

/-- The while condition of the generator loops in `__iter__` / `__aiter__`
(lines 138-143): `self._limit` is immutable after construction, so the
source's two loops (`while (items or cursor) and count < limit` when
`_limit` is truthy, `while items or cursor` otherwise) are combined into one
guard. -/
def loopGuard (it : Iterator) : Bool :=
  (!it.items.isEmpty || optTruthy it.server_cursor)
    && (!limitTruthy it.limit || decide (it.count < it.limit.getD 0))

/-- The generator loop of `__iter__`: repeatedly `yield self._iterate()`
while the guard holds. Returns the produced objects in order, the final state
and how the run ended. -/
def Iterator.iterAux (srv : Server) : Nat → Iterator →
    List Object × Iterator × RunOut
  | 0, it => ([], it, .fuelOut)
  | fuel + 1, it =>
    if loopGuard it then
      match Iterator.iterate srv it with
      | (.error e, it') => ([], it', .raised e)
      | (.ok x, it') =>
        match Iterator.iterAux srv fuel it' with
        | (xs, itf, out) => (x :: xs, itf, out)
    else ([], it, .finished)

/-- Models `Iterator.__iter__` (lines 135-143): the eager seeding fetch when
`not self._items and self._count == 0` (which does NOT reset
`_batch_cursor`), then the yield loop. -/
def Iterator.iterRun (srv : Server) (fuel : Nat) (it : Iterator) :
    List Object × Iterator × RunOut :=
  if it.items.isEmpty && it.count == 0 then
    match Iterator.get_batch srv it 0 with
    | .error e => ([], it, .raised e)
    | .ok (newItems, newCur) =>
      Iterator.iterAux srv fuel
        { it with items := newItems, server_cursor := newCur }
  else Iterator.iterAux srv fuel it

/-- The generator loop of `__aiter__` (lines 148-153), async twin of
`iterAux`. -/
def Iterator.aiterAux (srv : Server) : Nat → Iterator →
    List Object × Iterator × RunOut
  | 0, it => ([], it, .fuelOut)
  | fuel + 1, it =>
    if loopGuard it then
      match Iterator.aiterate srv it with
      | (.error e, it') => ([], it', .raised e)
      | (.ok x, it') =>
        match Iterator.aiterAux srv fuel it' with
        | (xs, itf, out) => (x :: xs, itf, out)
    else ([], it, .finished)

/-- Models `Iterator.__aiter__` (lines 145-153), async twin of `iterRun`. -/
def Iterator.aiterRun (srv : Server) (fuel : Nat) (it : Iterator) :
    List Object × Iterator × RunOut :=
  if it.items.isEmpty && it.count == 0 then
    match Iterator.get_batch_async srv it 0 with
    | .error e => ([], it, .raised e)
    | .ok (newItems, newCur) =>
      Iterator.aiterAux srv fuel
        { it with items := newItems, server_cursor := newCur }
  else Iterator.aiterAux srv fuel it

/-- Models the read-only `cursor` property (lines 181-190): `None` when
`_server_cursor` is falsy, else `_server_cursor + '-' + str(_batch_cursor)`. -/
def Iterator.cursor (it : Iterator) : Option String :=
  if optTruthy it.server_cursor then
    some ((it.server_cursor.getD "") ++ "-" ++ natToStr it.batch_cursor)
  else none

/-- Lookup of a query parameter by key in the assembled parameter mapping
(what a server does with the request's query string). -/
def lookupParam (params : List (String × Json)) (k : String) : Option Json :=
  (params.find? (fun p => p.1 == k)).map (fun p => p.2)

/-- The opaque server cursor naming page `i` of a paginated collection:
`i` repetitions of `c` (so that a server can decode it by length, and the
cursor of any page other than page 0 is a nonempty — truthy — string). -/
def encPage (i : Nat) : String := String.mk (List.replicate i 'c')

/-- The records of page `i` of a collection (empty past the last page). -/
def pageData (pages : List (List Json)) (i : Nat) : List Json := pages.getD i []

/-- The `meta` member sent with page `i`: carries the cursor of page `i + 1`
exactly when that page exists, and is otherwise empty (the last-page signal
of the wire contract). -/
def metaJson (pages : List (List Json)) (i : Nat) : Json :=
  if i + 1 < pages.length then Json.obj [("cursor", Json.str (encPage (i + 1)))]
  else Json.obj []

/-- The JSON response envelope for page `i` of a collection. -/
def pageJson (pages : List (List Json)) (i : Nat) : Json :=
  Json.obj [("data", Json.arr (pageData pages i)), ("meta", metaJson pages i)]

/-- A Transport serving a fixed paginated collection `pages`: a request
without a `cursor` parameter gets page 0, a request with cursor `encPage i`
gets page `i`. This is the generic "server-side collection" the spec's
properties quantify over. -/
def serverOfPages (pages : List (List Json)) : Server := fun _path params =>
  match lookupParam params "cursor" with
  | some (Json.str s) => Except.ok (pageJson pages s.length)
  | some _ => Except.error (PyErr.transportError "unknown cursor")
  | none => Except.ok (pageJson pages 0)

/-- The `_server_cursor` value held while page `i` of `pages` is the most
recently fetched page: the cursor of page `i + 1` when it exists. -/
def sCur (pages : List (List Json)) (i : Nat) : Option String :=
  if i + 1 < pages.length then some (encPage (i + 1)) else none

/-- The records still to be produced by a run whose remaining budget under
`overall_limit` `L` is `L - n` (`n` items already produced); everything when
the limit is falsy. -/
def takeBudget (L : Option Nat) (n : Nat) (R : List Json) : List Json :=
  if limitTruthy L then R.take (L.getD 0 - n) else R

/-- An iterator state in the middle of a run: explicit record constructor
used to state the loop invariant. -/
def midIt (path : String) (qp : List (String × Json)) (bs : Nat)
    (L : Option Nat) (rem : List Json) (n b : Nat) (sc : Option String) :
    Iterator :=
  { path := path, params := qp, batch_size := bs, limit := L,
    items := rem, count := n, server_cursor := sc, batch_cursor := b }

/-- Iterated manual advancement: the state after `n` calls to `__next__`
(results discarded). -/
def nextN (srv : Server) : Nat → Iterator → Iterator
  | 0, it => it
  | n + 1, it => nextN srv n (Iterator.next srv it).2

/-- A two-page collection: 2 records then 1 record (3 in total). -/
def twoPages : List (List Json) := [[.num 1, .num 2], [.num 3]]

/-- A three-page collection of one record each. -/
def threePages : List (List Json) := [[.num 1], [.num 2], [.num 3]]

/-- The 20-record first page of the spec's mid-page-resume scenario. -/
def resumePage : List Json :=
  [.num 1, .num 2, .num 3, .num 4, .num 5, .num 6, .num 7, .num 8, .num 9,
   .num 10, .num 11, .num 12, .num 13, .num 14, .num 15, .num 16, .num 17,
   .num 18, .num 19, .num 20]

/-- The Transport of the spec's mid-page-resume scenario (§8): the fresh
request returns the 20-record page with server cursor `c1`, and a request
with cursor `c1` re-fetches the very same page (the spec's resumption model:
the serialized cursor re-fetches the page it was read against, and the
offset is meant to skip its already-seen records). -/
def mockResumeServer : Server := fun _path params =>
  match lookupParam params "cursor" with
  | none =>
    .ok (.obj [("data", .arr resumePage), ("meta", .obj [("cursor", .str "c1")])])
  | some (Json.str "c1") =>
    .ok (.obj [("data", .arr resumePage), ("meta", .obj [("cursor", .str "c1")])])
  | _ => .error (.transportError "unknown cursor")

/-- Flatten of a ghost record of the last successful fetch: `none` when no
fetch ever succeeded, `some c` when the last successful fetch parsed
`meta.cursor` as `c` (with `c = none` meaning the server omitted it). -/
def joinOpt : Option (Option String) → Option String
  | none => none
  | some c => c

/-- The state invariant carried through the ghost-instrumented runs: `g` is
the number of items produced since `_server_cursor` was last assigned, `m`
records the last successful fetch. -/
def GhostInv (it : Iterator) (g : Nat) (m : Option (Option String)) : Prop :=
  it.batch_cursor = g ∧ (it.count = 0 → g = 0) ∧ it.server_cursor = joinOpt m

/-- Ghost bookkeeping for one `__next__` call on pre-state `it`: if the call
performs the eager fetch and it succeeds, `_server_cursor` is assigned and
the items produced since that assignment within the call are 1 (successful
pop) or 0 (empty page, `IndexError`); otherwise the count grows by one per
produced item and the record of the last fetch is unchanged. -/
def nextGhost (srv : Server) (it : Iterator)
    (gm : Nat × Option (Option String)) : Nat × Option (Option String) :=
  if it.items.isEmpty && it.count == 0 then
    match Iterator.get_batch srv it 0 with
    | .error _ => gm
    | .ok (ni, nc) => (if ni.isEmpty then 0 else 1, some nc)
  else
    match (Iterator.next srv it).1 with
    | .ok _ => (gm.1 + 1, gm.2)
    | .error _ => gm

/-- Ghost bookkeeping for one `_iterate` call: a successful refill assigns
`_server_cursor`, after which 1 item (successful pop) or 0 items (empty
page) are produced within the call; without a refill one item is produced. -/
def iterateGhost (srv : Server) (it : Iterator)
    (gm : Nat × Option (Option String)) : Nat × Option (Option String) :=
  if it.items.length == 0 then
    match Iterator.get_batch srv it 0 with
    | .error _ => gm
    | .ok (ni, nc) => (if ni.isEmpty then 0 else 1, some nc)
  else (gm.1 + 1, gm.2)

/-- The eager seeding fetch at the head of `__iter__` / `__aiter__`
(lines 136-137 / 146-147), as a state transformer (the generator body after
it is a sequence of `_iterate` calls). `get_batch_async` is the same
function as `get_batch` in this embedding, so this also covers the async
surface. -/
def Iterator.seed (srv : Server) (it : Iterator) : Iterator :=
  if it.items.isEmpty && it.count == 0 then
    match Iterator.get_batch srv it 0 with
    | .error _ => it
    | .ok (ni, nc) => { it with items := ni, server_cursor := nc }
  else it

/-- Ghost bookkeeping for the seeding fetch: a successful fetch assigns
`_server_cursor` and produces nothing, and the produced-since-assignment
count `gm.1` is already 0 there (nothing was ever produced before a seed
can fire). -/
def seedGhost (srv : Server) (it : Iterator)
    (gm : Nat × Option (Option String)) : Nat × Option (Option String) :=
  if it.items.isEmpty && it.count == 0 then
    match Iterator.get_batch srv it 0 with
    | .error _ => gm
    | .ok (_, nc) => (gm.1, some nc)
  else gm

/-- One observable operation on the shared state machine, instrumented with
the ghost pair `(g, m)`: `g` counts items produced since `_server_cursor`
was last assigned, `m` records the cursor delivered by the last successful
fetch. The async surfaces (`__anext__`, `_aiterate`) are extensionally the
same functions as their sync twins in this embedding, so the three
constructors cover every consumption surface. -/
inductive Step (srv : Server) :
    Iterator × Nat × Option (Option String) →
    Iterator × Nat × Option (Option String) → Prop where
  | next (it : Iterator) (gm : Nat × Option (Option String)) :
      Step srv (it, gm) ((Iterator.next srv it).2, nextGhost srv it gm)
  | iterate (it : Iterator) (gm : Nat × Option (Option String)) :
      Step srv (it, gm) ((Iterator.iterate srv it).2, iterateGhost srv it gm)
  | seed (it : Iterator) (gm : Nat × Option (Option String)) :
      Step srv (it, gm) (Iterator.seed srv it, seedGhost srv it gm)

/-- A Transport whose every request fails (a transient network error). -/
def failServer : Server := fun _path _params =>
  .error (.transportError "connection reset")

/-- A Transport returning the spec's non-collection payload
`data: (not: a list)`. -/
def nonCollectionServer : Server := fun _path _params =>
  .ok (.obj [("data", .obj [("not", .str "a list")])])

/-- A Transport returning a single-record last page (no `meta.cursor`). -/
def singlePageServer : Server := fun _path _params =>
  .ok (.obj [("data", .arr [.num 4]), ("meta", .obj [])])

theorem aiterate_eq_iterate (srv : Server) (it : Iterator) :
    Iterator.aiterate srv it = Iterator.iterate srv it := rfl

theorem anext_eq_next (srv : Server) (it : Iterator) :
    Iterator.anext srv it = Iterator.next srv it := rfl

theorem aiterAux_eq_iterAux (srv : Server) :
    ∀ (fuel : Nat) (it : Iterator),
      Iterator.aiterAux srv fuel it = Iterator.iterAux srv fuel it := by
  intro fuel
  induction fuel with
  | zero => intro it; rfl
  | succ n ih =>
    intro it
    unfold Iterator.aiterAux Iterator.iterAux
    rw [aiterate_eq_iterate srv it]
    simp only [ih]

theorem aiterRun_eq_iterRun (srv : Server) (fuel : Nat) (it : Iterator) :
    Iterator.aiterRun srv fuel it = Iterator.iterRun srv fuel it := by
  unfold Iterator.aiterRun Iterator.iterRun
  simp only [aiterAux_eq_iterAux]
  rfl

/-- C10: for every iterator state and sequence of transport responses, the
asynchronous single-item advance (`_aiterate`, `__anext__`) and sequence
production (`__aiter__`) perform the identical state transformation and
return (or signal) the same result as the synchronous variants (`_iterate`,
`__next__`, `__iter__`): the two surfaces are semantically equal, the
suspension mechanism being invisible to a pure embedding. -/
theorem c10_sync_async_equivalence :
    ∀ (srv : Server) (it : Iterator) (fuel : Nat),
      Iterator.aiterate srv it = Iterator.iterate srv it
      ∧ Iterator.anext srv it = Iterator.next srv it
      ∧ Iterator.aiterAux srv fuel it = Iterator.iterAux srv fuel it
      ∧ Iterator.aiterRun srv fuel it = Iterator.iterRun srv fuel it :=
  fun srv it fuel =>
    ⟨aiterate_eq_iterate srv it, anext_eq_next srv it,
     aiterAux_eq_iterAux srv fuel it, aiterRun_eq_iterRun srv fuel it⟩

/-- C1 (code bug): in the spec's mid-page-resume scenario — a 20-record page
whose server cursor `c1` re-fetches the same page — the original iterator,
after producing 7 items, has resumption cursor `c1-7` and would next produce
record 8; but the iterator constructed from `c1-7` produces record 1 as its
first item: the skip count parsed into `_batch_cursor` is never forwarded to
`_get_batch` (every call site uses the default 0), so the re-fetched page is
not skipped. -/
theorem c1_resume_does_not_skip :
    (nextN mockResumeServer 7 (mkFresh "p" [] none 0)).cursor = some "c1-7"
    ∧ (Iterator.next mockResumeServer
        (nextN mockResumeServer 7 (mkFresh "p" [] none 0))).1
      = .ok (Object.from_dict (Json.num 8))
    ∧ (Iterator.init "p" [] (some "c1-7") none 0).map
        (fun st => (Iterator.next mockResumeServer st).1)
      = .ok (.ok (Object.from_dict (Json.num 1)))
    ∧ Object.from_dict (Json.num 1) ≠ Object.from_dict (Json.num 8) := by
  refine ⟨rfl, rfl, rfl, ?_⟩
  intro h
  have h1 : Json.num 1 = Json.num 8 := congrArg Object.raw h
  injection h1 with h2
  exact absurd h2 (by decide)

/-- C5 counterexample: construction with the resumption cursor `""` does NOT
fail — `if cursor:` is false for the empty string, so the empty cursor is
silently treated as no cursor and construction succeeds as a fresh
iterator, contradicting the claimed `InvalidArgument`. -/
theorem c5_counterexample_empty_cursor_accepted :
    Iterator.init "p" [] (some "") none 0 = .ok (mkFresh "p" [] none 0) := rfl

/-- C5 amended: cursors `abc` (no `-`, empty server-cursor part) and
`srv-notanint` (non-integer offset part) are rejected with the
`invalid cursor` error; the empty cursor `""` is falsy and is treated as an
absent cursor, so construction succeeds as a fresh iterator. -/
theorem c5_malformed_cursor_amended :
    ∀ (path : String) (L : Option Nat) (bs : Nat),
      Iterator.init path [] (some "abc") L bs
        = .error (.valueError "invalid cursor")
      ∧ Iterator.init path [] (some "srv-notanint") L bs
        = .error (.valueError "invalid cursor")
      ∧ Iterator.init path [] (some "") L bs = .ok (mkFresh path [] L bs) :=
  fun _ _ _ => ⟨rfl, rfl, rfl⟩

/-- C6: calling `__next__` (or `__anext__`) on a fresh iterator over an empty
collection — the fetch returns an empty `data` list — raises `IndexError`
from the unguarded `self._items.pop(0)`: the end-of-sequence guards require
`_count > 0` or `_count >= _limit`, neither of which holds on the first
call, for every `_limit` setting. -/
theorem c6_empty_collection_index_error :
    ∀ (path : String) (L : Option Nat),
      (Iterator.init path [] none L 0).map
          (fun st => (Iterator.next (serverOfPages []) st).1)
        = .ok (.error .indexError)
      ∧ (Iterator.init path [] none L 0).map
          (fun st => (Iterator.anext (serverOfPages []) st).1)
        = .ok (.error .indexError) := by
  intro path L
  rcases L with _ | l
  · exact ⟨rfl, rfl⟩
  · rcases l with _ | l
    · exact ⟨rfl, rfl⟩
    · exact ⟨rfl, rfl⟩

/-- C2 counterexample: with `overall_limit = 3` over the 3-record collection
`twoPages` (a 2-record page, then a 1-record page), the third `__next__`
call signals end-of-sequence after only 2 produced items even though a
server cursor to the remaining record is still held: `__next__` never
re-fetches once `_count > 0`, so manual stepping ends at the first buffer's
end, not after the `L`-th item. -/
theorem c2_counterexample_manual_stop_before_limit :
    (nextN (serverOfPages twoPages) 2 (mkFresh "p" [] (some 3) 0)).count = 2
    ∧ optTruthy (nextN (serverOfPages twoPages) 2
        (mkFresh "p" [] (some 3) 0)).server_cursor = true
    ∧ twoPages.flatten.length = 3
    ∧ (Iterator.next (serverOfPages twoPages)
        (nextN (serverOfPages twoPages) 2 (mkFresh "p" [] (some 3) 0))).1
      = .error .stopIteration :=
  ⟨rfl, rfl, rfl, rfl⟩

/-- C3 counterexample: running the `twoPages` collection to exhaustion (the
last page carries no `meta.cursor`), the `cursor` property of the final
state is `None`, not the last page's cursor combined with the final offset:
the last fetch overwrote `_server_cursor` with the absent `meta.cursor`. -/
theorem c3_counterexample_exhausted_cursor_none :
    (Iterator.iterRun (serverOfPages twoPages) 10 (mkFresh "p" [] none 0)).2.2
      = RunOut.finished
    ∧ (Iterator.iterRun (serverOfPages twoPages) 10 (mkFresh "p" [] none 0)).1
      = [Object.from_dict (.num 1), Object.from_dict (.num 2),
         Object.from_dict (.num 3)]
    ∧ (Iterator.iterRun (serverOfPages twoPages) 10
        (mkFresh "p" [] none 0)).2.1.cursor = none :=
  ⟨rfl, rfl, rfl⟩

/-- C4 counterexample: an iterator constructed from resumption cursor `c-7`
starts with `_batch_cursor = 7` although it has produced 0 items; after one
`__next__` call (over `threePages`, whose cursor `c` fetches the 1-record
page 1) `_server_cursor` has just been assigned (`cc`) and exactly 1 item
has ever been produced, yet `_batch_cursor = 8`: the eager fetch of
`__next__` does not reset the parsed offset, so the claimed invariant fails
for cursor-constructed iterators at every reading of "produced". -/
theorem c4_counterexample_resumed_offset :
    Iterator.init "p" [] (some "c-7") none 0
      = .ok { mkFresh "p" [] none 0 with
              server_cursor := some "c", batch_cursor := 7 }
    ∧ (Iterator.init "p" [] (some "c-7") none 0).map
        (fun st =>
          ((Iterator.next (serverOfPages threePages) st).2.batch_cursor,
           (Iterator.next (serverOfPages threePages) st).2.count,
           (Iterator.next (serverOfPages threePages) st).2.server_cursor))
      = .ok (8, 1, some "cc") :=
  ⟨rfl, rfl⟩

/-- C7: construction with a params mapping containing the reserved key
`cursor` (checked first) or `limit` fails with the corresponding
`Do not pass ...` error. The failure is decided before any network access:
the constructor of this embedding does not even receive a Transport, mirroring
that `__init__` performs no fetch. -/
theorem c7_reserved_params_rejected :
    ∀ (path : String) (params : List (String × Json)) (cursor : Option String)
      (L : Option Nat) (bs : Nat),
      ((params.find? (fun p => p.1 == "cursor")).isSome = true →
        Iterator.init path params cursor L bs
          = .error (.valueError "Do not pass \"cursor\" as a path param"))
      ∧ ((params.find? (fun p => p.1 == "limit")).isSome = true →
        Iterator.init path params cursor L bs
            = .error (.valueError "Do not pass \"cursor\" as a path param")
          ∨ Iterator.init path params cursor L bs
            = .error (.valueError "Do not pass \"limit\" as a path param")) := by
  intro path params cursor L bs
  constructor
  · intro h
    simp [Iterator.init, h]
  · intro h
    by_cases hc : (params.find? (fun p => p.1 == "cursor")).isSome = true
    · left
      simp [Iterator.init, hc]
    · right
      simp only [Bool.not_eq_true] at hc
      simp [Iterator.init, hc, h]

theorem c7_reserved_params_witness :
    (([("cursor", Json.str "x")] : List (String × Json)).find?
        (fun p => p.1 == "cursor")).isSome = true
    ∧ Iterator.init "p" [("cursor", Json.str "x")] none none 0
      = .error (.valueError "Do not pass \"cursor\" as a path param")
    ∧ (([("limit", Json.num 5)] : List (String × Json)).find?
        (fun p => p.1 == "limit")).isSome = true
    ∧ (Iterator.init "p" [("limit", Json.num 5)] none none 0
        = .error (.valueError "Do not pass \"cursor\" as a path param")
      ∨ Iterator.init "p" [("limit", Json.num 5)] none none 0
        = .error (.valueError "Do not pass \"limit\" as a path param")) :=
  ⟨rfl, (c7_reserved_params_rejected "p" [("cursor", Json.str "x")] none none 0).1 rfl,
   rfl, (c7_reserved_params_rejected "p" [("limit", Json.num 5)] none none 0).2 rfl⟩

/-- C9: if the Transport call of an advancement operation fails, the
operation re-raises the error and the iterator state (buffer, server
cursor, produced count, batch cursor) is exactly the pre-operation state:
the buffer/cursor assignment happens only after a successful fetch, so the
step can be retried. Covers `_iterate` / `__next__` and their async twins
(which fetch exactly when the buffer is empty, resp. on the first call). -/
theorem c9_fetch_failure_atomicity :
    ∀ (srv : Server) (it : Iterator) (e : PyErr),
      srv it.path it.build_params = .error e →
      (it.items.length = 0 → Iterator.iterate srv it = (.error e, it))
      ∧ (it.items.isEmpty = true → it.count = 0 →
          Iterator.next srv it = (.error e, it))
      ∧ (it.items.length = 0 → Iterator.aiterate srv it = (.error e, it))
      ∧ (it.items.isEmpty = true → it.count = 0 →
          Iterator.anext srv it = (.error e, it)) := by
  intro srv it e hsrv
  refine ⟨?_, ?_, ?_, ?_⟩
  · intro h
    simp [Iterator.iterate, Iterator.get_batch, hsrv, h]
  · intro h1 h2
    simp [Iterator.next, Iterator.get_batch, hsrv, h1, h2]
  · intro h
    simp [Iterator.aiterate, Iterator.get_batch_async, hsrv, h]
  · intro h1 h2
    simp [Iterator.anext, Iterator.get_batch_async, hsrv, h1, h2]

theorem c9_fetch_failure_atomicity_witness :
    failServer (mkFresh "p" [] none 0).path (mkFresh "p" [] none 0).build_params
      = .error (.transportError "connection reset")
    ∧ Iterator.iterate failServer (mkFresh "p" [] none 0)
      = (.error (.transportError "connection reset"), mkFresh "p" [] none 0)
    ∧ Iterator.next failServer (mkFresh "p" [] none 0)
      = (.error (.transportError "connection reset"), mkFresh "p" [] none 0) :=
  ⟨rfl,
   (c9_fetch_failure_atomicity failServer (mkFresh "p" [] none 0) _ rfl).1 rfl,
   (c9_fetch_failure_atomicity failServer (mkFresh "p" [] none 0) _ rfl).2.1 rfl rfl⟩

theorem parse_response_not_collection (path : String) (resp : Json) (k : Nat)
    (h : ∀ xs, ¬ resp.get "data" = some (.arr xs)) :
    Iterator.parse_response path resp k
      = .error (.valueError (path ++ " is not a collection")) := by
  unfold Iterator.parse_response
  cases hd : resp.get "data" with
  | none => rfl
  | some j =>
    cases j with
    | arr xs => exact absurd hd (h xs)
    | null => rfl
    | str s => rfl
    | num n => rfl
    | bool b => rfl
    | obj fields => rfl

theorem parse_response_collection (path : String) (resp : Json) (k : Nat)
    (xs : List Json) (hd : resp.get "data" = some (.arr xs)) :
    Iterator.parse_response path resp k
      = .ok (xs.drop k,
          match ((resp.get "meta").getD (Json.obj [])).get "cursor" with
          | some (.str s) => some s
          | _ => none) := by
  unfold Iterator.parse_response
  rw [hd]

theorem get_batch_of_response (srv : Server) (it : Iterator) (resp : Json)
    (k : Nat) (hsrv : srv it.path it.build_params = .ok resp) :
    Iterator.get_batch srv it k = Iterator.parse_response it.path resp k := by
  unfold Iterator.get_batch
  rw [hsrv]

/-- C8: a batch fetch whose JSON response has no `data` field, or whose
`data` field is not a list, fails with the `... is not a collection` error
(the spec's `InvalidResponse`); when `data` is a list, the fetch succeeds
and the new server cursor is read from `meta.cursor` — absent `meta` or an
absent (or non-string) cursor yields `none`, the last-page signal. -/
theorem c8_non_collection_rejection :
    ∀ (srv : Server) (it : Iterator) (resp : Json) (k : Nat),
      srv it.path it.build_params = .ok resp →
      ((∀ xs, ¬ resp.get "data" = some (.arr xs)) →
        Iterator.get_batch srv it k
          = .error (.valueError (it.path ++ " is not a collection")))
      ∧ (∀ xs, resp.get "data" = some (.arr xs) →
        Iterator.get_batch srv it k
          = .ok (xs.drop k,
              match ((resp.get "meta").getD (Json.obj [])).get "cursor" with
              | some (.str s) => some s
              | _ => none)) := by
  intro srv it resp k hsrv
  constructor
  · intro h
    rw [get_batch_of_response srv it resp k hsrv]
    exact parse_response_not_collection it.path resp k h
  · intro xs hd
    rw [get_batch_of_response srv it resp k hsrv]
    exact parse_response_collection it.path resp k xs hd

theorem c8_non_collection_rejection_witness :
    nonCollectionServer (mkFresh "p" [] none 0).path
        (mkFresh "p" [] none 0).build_params
      = .ok (.obj [("data", .obj [("not", .str "a list")])])
    ∧ Iterator.get_batch nonCollectionServer (mkFresh "p" [] none 0) 0
      = .error (.valueError ("p" ++ " is not a collection"))
    ∧ Iterator.get_batch singlePageServer (mkFresh "p" [] none 0) 0
      = .ok ([Json.num 4].drop 0,
          match (((Json.obj [("data", .arr [.num 4]), ("meta", .obj [])]).get
              "meta").getD (Json.obj [])).get "cursor" with
          | some (.str s) => some s
          | _ => none) :=
  ⟨rfl,
   (c8_non_collection_rejection nonCollectionServer (mkFresh "p" [] none 0)
      (.obj [("data", .obj [("not", .str "a list")])]) 0 rfl).1
     (fun xs h => by simp [Json.get] at h),
   (c8_non_collection_rejection singlePageServer (mkFresh "p" [] none 0)
      (.obj [("data", .arr [.num 4]), ("meta", .obj [])]) 0 rfl).2
     [Json.num 4] rfl⟩

theorem iterAux_finished_guard (srv : Server) :
    ∀ (fuel : Nat) (it : Iterator) (xs : List Object) (itf : Iterator),
      Iterator.iterAux srv fuel it = (xs, itf, RunOut.finished) →
      loopGuard itf = false := by
  intro fuel
  induction fuel with
  | zero =>
    intro it xs itf h
    simp [Iterator.iterAux] at h
  | succ f ih =>
    intro it xs itf h
    unfold Iterator.iterAux at h
    split at h
    · split at h
      next e it' heq => simp at h
      next x it' heq =>
        split at h
        next p itm out heq2 =>
          injection h with h1 h2
          injection h2 with h3 h4
          subst h4
          rw [← h3]
          exact ih it' p itm heq2
    · next hg =>
      injection h with h1 h2
      injection h2 with h3 h4
      rw [← h3]
      exact Bool.eq_false_iff.mpr hg

theorem iterRun_finished_guard (srv : Server) (fuel : Nat) (it : Iterator)
    (xs : List Object) (itf : Iterator)
    (h : Iterator.iterRun srv fuel it = (xs, itf, RunOut.finished)) :
    loopGuard itf = false := by
  unfold Iterator.iterRun at h
  split at h
  · split at h
    next e heq => simp at h
    next pair heq =>
      exact iterAux_finished_guard srv fuel _ xs itf h
  · exact iterAux_finished_guard srv fuel it xs itf h

/-- C3 amended: the `cursor` property returns `None` whenever no truthy
server cursor is held — in particular on a freshly constructed iterator
(before any fetch) AND on any iterator whose unbounded full-sequence run
finished (exhaustion overwrites `_server_cursor` with the last page's absent
`meta.cursor`, so no resumption token survives); whenever a nonempty server
cursor is held, it returns `"<server_cursor>-<batch_cursor>"`. -/
theorem c3_cursor_accessor_amended :
    (∀ (path : String) (qp : List (String × Json)) (L : Option Nat) (bs : Nat),
      (mkFresh path qp L bs).cursor = none)
    ∧ (∀ (srv : Server) (fuel : Nat) (it : Iterator) (xs : List Object)
        (itf : Iterator),
        Iterator.iterRun srv fuel it = (xs, itf, RunOut.finished) →
        limitTruthy itf.limit = false →
        itf.cursor = none)
    ∧ (∀ (it : Iterator) (s : String),
        it.server_cursor = some s → (s == "") = false →
        it.cursor = some (s ++ "-" ++ natToStr it.batch_cursor)) := by
  refine ⟨fun _ _ _ _ => rfl, ?_, ?_⟩
  · intro srv fuel it xs itf hrun hlim
    have hg : loopGuard itf = false := iterRun_finished_guard srv fuel it xs itf hrun
    unfold loopGuard at hg
    rw [hlim] at hg
    simp at hg
    unfold Iterator.cursor
    rw [hg.2]
    rfl
  · intro it s hsc hs
    unfold Iterator.cursor
    rw [hsc]
    simp [optTruthy, hs]

theorem c3_cursor_accessor_amended_witness :
    (mkFresh "q" [] none 0).cursor = none
    ∧ (Iterator.iterRun (serverOfPages [[Json.num 5]]) 10
        (mkFresh "q" [] none 0)).2.1.cursor = none
    ∧ (midIt "q" [] 0 none [] 0 3 (some "ss")).cursor
      = some ("ss" ++ "-" ++ natToStr 3) :=
  ⟨c3_cursor_accessor_amended.1 "q" [] none 0,
   c3_cursor_accessor_amended.2.1 (serverOfPages [[Json.num 5]]) 10
     (mkFresh "q" [] none 0) _ _ rfl rfl,
   c3_cursor_accessor_amended.2.2 (midIt "q" [] 0 none [] 0 3 (some "ss"))
     "ss" rfl rfl⟩

theorem encPage_length (i : Nat) : (encPage i).length = i := by
  simp [encPage, String.length]

theorem encPage_succ_ne_empty (i : Nat) : (encPage (i + 1) == "") = false := by
  apply beq_eq_false_iff_ne.mpr
  intro h
  have h2 := congrArg String.length h
  rw [encPage_length] at h2
  simp [String.length] at h2

theorem optTruthy_sCur (pages : List (List Json)) (i : Nat) :
    optTruthy (sCur pages i) = decide (i + 1 < pages.length) := by
  unfold sCur
  by_cases h : i + 1 < pages.length
  · rw [if_pos h]
    simp [optTruthy, encPage_succ_ne_empty, h]
  · rw [if_neg h]
    simp [optTruthy, h]

theorem find?_map_setKey (l : List (String × Json)) (k : String) (v : Json) :
    (l.map (fun p => if p.1 == k then (k, v) else p)).find? (fun p => p.1 == k)
      = if (l.find? (fun p => p.1 == k)).isSome then some (k, v) else none := by
  induction l with
  | nil => simp
  | cons p rest ih =>
    rw [List.map_cons]
    cases hp : p.1 == k with
    | true =>
      rw [if_pos rfl, List.find?_cons_of_pos _ (by simp),
        List.find?_cons_of_pos _ (by exact hp)]
      simp
    | false =>
      rw [if_neg Bool.false_ne_true, List.find?_cons_of_neg _ (by simp [hp]),
        List.find?_cons_of_neg _ (by simp [hp]), ih]

theorem lookupParam_setKey_self (l : List (String × Json)) (k : String)
    (v : Json) : lookupParam (setKey l k v) k = some v := by
  unfold setKey lookupParam
  by_cases hf : (l.find? (fun p => p.1 == k)).isSome = true
  · rw [if_pos hf, find?_map_setKey, if_pos hf]
    rfl
  · rw [if_neg hf]
    rw [List.find?_append]
    have hnone : l.find? (fun p => p.1 == k) = none := by
      cases h : l.find? (fun p => p.1 == k) with
      | none => rfl
      | some q => exact absurd (by simp [h]) hf
    simp [hnone, List.find?, -List.find?_map]

theorem find?_map_setKey_other (l : List (String × Json)) (k k' : String)
    (v : Json) (hkk : (k' == k) = false) :
    (l.map (fun p => if p.1 == k then (k, v) else p)).find?
        (fun p => p.1 == k')
      = l.find? (fun p => p.1 == k') := by
  have hne : k ≠ k' := fun h => by
    exact absurd (beq_iff_eq.mpr h.symm) (by simp [hkk])
  have hkk2 : (k == k') = false := beq_eq_false_iff_ne.mpr hne
  induction l with
  | nil => simp
  | cons p rest ih =>
    rw [List.map_cons]
    cases hp : p.1 == k with
    | true =>
      have hp2 : (p.1 == k') = false := by
        have hpk : p.1 = k := beq_iff_eq.mp hp
        rw [hpk]
        exact hkk2
      rw [if_pos rfl, List.find?_cons_of_neg _ (by simp [hkk2]),
        List.find?_cons_of_neg _ (by simp [hp2]), ih]
    | false =>
      rw [if_neg Bool.false_ne_true]
      cases hp2 : p.1 == k' with
      | true =>
        rw [List.find?_cons_of_pos _ (by exact hp2), List.find?_cons_of_pos _ (by exact hp2)]
      | false =>
        rw [List.find?_cons_of_neg _ (by simp [hp2]),
          List.find?_cons_of_neg _ (by simp [hp2]), ih]

theorem lookupParam_setKey_other (l : List (String × Json)) (k k' : String)
    (v : Json) (hkk : (k' == k) = false) :
    lookupParam (setKey l k v) k' = lookupParam l k' := by
  have hne : k ≠ k' := fun h => by
    exact absurd (beq_iff_eq.mpr h.symm) (by simp [hkk])
  have hkk2 : (k == k') = false := beq_eq_false_iff_ne.mpr hne
  unfold setKey lookupParam
  by_cases hf : (l.find? (fun p => p.1 == k)).isSome = true
  · rw [if_pos hf, find?_map_setKey_other l k k' v hkk]
  · rw [if_neg hf]
    rw [List.find?_append]
    simp [List.find?, hkk2, -List.find?_map]

theorem build_params_cursor_some (it : Iterator) (s : String)
    (hsc : it.server_cursor = some s) (hs : (s == "") = false) :
    lookupParam it.build_params "cursor" = some (.str s) := by
  unfold Iterator.build_params
  simp only [hsc, optTruthy, hs, Bool.not_false, if_true, Option.getD_some]
  by_cases hbs : (it.batch_size != 0) = true
  · rw [if_pos hbs, lookupParam_setKey_other _ _ _ _ (by rfl),
      lookupParam_setKey_self]
  · rw [if_neg hbs, lookupParam_setKey_self]

theorem build_params_cursor_none (it : Iterator)
    (hsc : optTruthy it.server_cursor = false)
    (hq : it.params.find? (fun p => p.1 == "cursor") = none) :
    lookupParam it.build_params "cursor" = none := by
  unfold Iterator.build_params
  simp only [hsc, Bool.false_eq_true, if_false]
  have hlp : lookupParam it.params "cursor" = none := by
    unfold lookupParam
    rw [hq]
    rfl
  by_cases hbs : (it.batch_size != 0) = true
  · rw [if_pos hbs, lookupParam_setKey_other _ _ _ _ (by rfl)]
    exact hlp
  · rw [if_neg hbs]
    exact hlp

theorem parse_pageJson (pages : List (List Json)) (i : Nat) (path : String)
    (k : Nat) :
    Iterator.parse_response path (pageJson pages i) k
      = .ok ((pageData pages i).drop k, sCur pages i) := by
  unfold Iterator.parse_response pageJson metaJson sCur
  by_cases h : i + 1 < pages.length
  · rw [if_pos h, if_pos h]
    rfl
  · rw [if_neg h, if_neg h]
    rfl

theorem serverOfPages_fetch_cursor (pages : List (List Json)) (it : Iterator)
    (i : Nat)
    (hcur : lookupParam it.build_params "cursor" = some (.str (encPage i))) :
    serverOfPages pages it.path it.build_params = .ok (pageJson pages i) := by
  show (match lookupParam it.build_params "cursor" with
    | some (Json.str s) => Except.ok (pageJson pages s.length)
    | some _ => Except.error (PyErr.transportError "unknown cursor")
    | none => Except.ok (pageJson pages 0)) = .ok (pageJson pages i)
  rw [hcur]
  simp [encPage_length]

theorem serverOfPages_fetch_fresh (pages : List (List Json)) (it : Iterator)
    (hcur : lookupParam it.build_params "cursor" = none) :
    serverOfPages pages it.path it.build_params = .ok (pageJson pages 0) := by
  show (match lookupParam it.build_params "cursor" with
    | some (Json.str s) => Except.ok (pageJson pages s.length)
    | some _ => Except.error (PyErr.transportError "unknown cursor")
    | none => Except.ok (pageJson pages 0)) = .ok (pageJson pages 0)
  rw [hcur]

theorem get_batch_pages_cursor (pages : List (List Json)) (it : Iterator)
    (i : Nat) (k : Nat)
    (hcur : lookupParam it.build_params "cursor" = some (.str (encPage i))) :
    Iterator.get_batch (serverOfPages pages) it k
      = .ok ((pageData pages i).drop k, sCur pages i) := by
  rw [get_batch_of_response _ _ _ _ (serverOfPages_fetch_cursor pages it i hcur)]
  exact parse_pageJson pages i it.path k

theorem get_batch_pages_fresh (pages : List (List Json)) (it : Iterator)
    (k : Nat) (hcur : lookupParam it.build_params "cursor" = none) :
    Iterator.get_batch (serverOfPages pages) it k
      = .ok ((pageData pages 0).drop k, sCur pages 0) := by
  rw [get_batch_of_response _ _ _ _ (serverOfPages_fetch_fresh pages it hcur)]
  exact parse_pageJson pages 0 it.path k

theorem pageData_ne_nil (pages : List (List Json))
    (hne : ∀ p ∈ pages, p ≠ []) (j : Nat) (h : j < pages.length) :
    pageData pages j ≠ [] := by
  unfold pageData
  rw [List.getD_eq_getElem _ _ h]
  exact hne _ (List.getElem_mem h)

theorem flatten_drop_succ (pages : List (List Json)) (j : Nat)
    (h : j < pages.length) :
    (pages.drop j).flatten = pageData pages j ++ (pages.drop (j + 1)).flatten := by
  rw [List.drop_eq_getElem_cons h, List.flatten_cons]
  unfold pageData
  rw [List.getD_eq_getElem _ _ h]

theorem flatten_drop_over (pages : List (List Json)) (j : Nat)
    (h : ¬ j < pages.length) :
    (pages.drop j).flatten = [] := by
  rw [List.drop_eq_nil_of_le (by omega), List.flatten_nil]

theorem flatten_head (pages : List (List Json)) :
    pageData pages 0 ++ (pages.drop 1).flatten = pages.flatten := by
  cases pages with
  | nil => rfl
  | cons p ps => rfl

theorem takeBudget_nil (L : Option Nat) (n : Nat) : takeBudget L n [] = [] := by
  unfold takeBudget
  split <;> simp

theorem takeBudget_stop (L : Option Nat) (n : Nat) (R : List Json)
    (h : limitTruthy L = true) (h2 : L.getD 0 ≤ n) : takeBudget L n R = [] := by
  unfold takeBudget
  rw [if_pos h, Nat.sub_eq_zero_of_le h2]
  exact List.take_zero R

theorem takeBudget_cons (L : Option Nat) (n : Nat) (x : Json) (R : List Json)
    (h : limitTruthy L = true → n < L.getD 0) :
    takeBudget L n (x :: R) = x :: takeBudget L (n + 1) R := by
  unfold takeBudget
  by_cases hL : limitTruthy L = true
  · rw [if_pos hL, if_pos hL]
    have h2 : L.getD 0 - n = (L.getD 0 - (n + 1)) + 1 := by
      have := h hL
      omega
    rw [h2]
    exact List.take_succ_cons
  · rw [if_neg hL, if_neg hL]

theorem popStep_cons (it : Iterator) (x : Json) (rest : List Json)
    (h : it.items = x :: rest) :
    Iterator.popStep it
      = (.ok (Object.from_dict x),
         { it with items := rest, count := it.count + 1,
                   batch_cursor := it.batch_cursor + 1 }) := by
  unfold Iterator.popStep
  rw [h]

theorem iterate_pop (srv : Server) (it : Iterator) (x : Json)
    (rest : List Json) (h : it.items = x :: rest) :
    Iterator.iterate srv it
      = (.ok (Object.from_dict x),
         { it with items := rest, count := it.count + 1,
                   batch_cursor := it.batch_cursor + 1 }) := by
  unfold Iterator.iterate
  rw [h, if_neg (by simp), popStep_cons _ x rest (by rw [h])]

theorem iterate_fetch (srv : Server) (it : Iterator) (ni : List Json)
    (nc : Option String) (hempty : it.items = [])
    (hgb : Iterator.get_batch srv it 0 = .ok (ni, nc)) :
    Iterator.iterate srv it
      = Iterator.popStep
          { it with items := ni, server_cursor := nc, batch_cursor := 0 } := by
  unfold Iterator.iterate
  rw [hempty,
    if_pos (show ((List.length ([] : List Json) == 0) = true) by rfl), hgb]

theorem iterAux_pages_run (pages : List (List Json)) (path : String)
    (qp : List (String × Json)) (bs : Nat) (L : Option Nat)
    (hne : ∀ p ∈ pages, p ≠ []) :
    ∀ (fuel i n b : Nat) (rem : List Json),
      (rem ++ (pages.drop (i + 1)).flatten).length + 1 ≤ fuel →
      ∃ itf,
        Iterator.iterAux (serverOfPages pages) fuel
            (midIt path qp bs L rem n b (sCur pages i))
          = ((takeBudget L n (rem ++ (pages.drop (i + 1)).flatten)).map
              Object.from_dict, itf, RunOut.finished) := by
  intro fuel
  induction fuel with
  | zero =>
    intro i n b rem hf
    exact absurd hf (by omega)
  | succ f ih =>
    intro i n b rem hf
    cases rem with
    | cons x rest =>
      by_cases hbud : limitTruthy L = true → n < L.getD 0
      · have hg : loopGuard (midIt path qp bs L (x :: rest) n b
            (sCur pages i)) = true := by
          simp only [loopGuard, midIt, List.isEmpty_cons, Bool.not_false,
            Bool.true_or, Bool.true_and]
          by_cases hL : limitTruthy L = true
          · simp [hL, hbud hL]
          · simp [hL]
        unfold Iterator.iterAux
        rw [if_pos hg]
        rw [iterate_pop _ _ x rest (by rfl)]
        obtain ⟨itf, hrec⟩ := ih i (n + 1) (b + 1) rest (by
          simp only [List.length_append, List.length_cons] at hf ⊢
          omega)
        refine ⟨itf, ?_⟩
        simp only [midIt] at hrec ⊢
        rw [hrec]
        rw [List.cons_append, takeBudget_cons _ _ _ _ hbud, List.map_cons]
      · push_neg at hbud
        obtain ⟨hL, hn⟩ := hbud
        have hg : loopGuard (midIt path qp bs L (x :: rest) n b
            (sCur pages i)) = false := by
          simp [loopGuard, midIt, hL, hn]
        unfold Iterator.iterAux
        rw [if_neg (by simp [hg])]
        refine ⟨midIt path qp bs L (x :: rest) n b (sCur pages i), ?_⟩
        rw [takeBudget_stop _ _ _ hL (by omega)]
        rfl
    | nil =>
      by_cases hpl : i + 1 < pages.length
      · have hsc : sCur pages i = some (encPage (i + 1)) := by
          unfold sCur
          rw [if_pos hpl]
        by_cases hbud : limitTruthy L = true → n < L.getD 0
        · have hg : loopGuard (midIt path qp bs L [] n b
              (sCur pages i)) = true := by
            rw [hsc]
            simp only [loopGuard, midIt]
            have h1 : optTruthy (some (encPage (i + 1))) = true := by
              simp [optTruthy, encPage_succ_ne_empty]
            rw [h1]
            simp only [Bool.or_true, Bool.true_and]
            by_cases hL : limitTruthy L = true
            · simp [hL, hbud hL]
            · simp [hL]
          have hcur : lookupParam
              (midIt path qp bs L [] n b (sCur pages i)).build_params "cursor"
              = some (.str (encPage (i + 1))) := by
            apply build_params_cursor_some _ _ _ (encPage_succ_ne_empty i)
            exact hsc
          have hgb : Iterator.get_batch (serverOfPages pages)
              (midIt path qp bs L [] n b (sCur pages i)) 0
              = .ok (pageData pages (i + 1), sCur pages (i + 1)) := by
            rw [get_batch_pages_cursor pages _ (i + 1) 0 hcur]
            rw [List.drop_zero]
          unfold Iterator.iterAux
          rw [if_pos hg]
          rw [iterate_fetch _ _ _ _ (by rfl) hgb]
          cases hpd : pageData pages (i + 1) with
          | nil => exact absurd hpd (pageData_ne_nil pages hne (i + 1) hpl)
          | cons y rest2 =>
            rw [popStep_cons _ y rest2 (by rfl)]
            obtain ⟨itf, hrec⟩ := ih (i + 1) (n + 1) 1 rest2 (by
              have hfl := flatten_drop_succ pages (i + 1) hpl
              rw [hfl, hpd] at hf
              simp only [List.nil_append, List.cons_append, List.length_cons,
                List.length_append] at hf ⊢
              omega)
            refine ⟨itf, ?_⟩
            simp only [midIt] at hrec ⊢
            rw [hrec]
            rw [List.nil_append, flatten_drop_succ pages (i + 1) hpl, hpd,
              List.cons_append, takeBudget_cons _ _ _ _ hbud, List.map_cons]
        · push_neg at hbud
          obtain ⟨hL, hn⟩ := hbud
          have hg : loopGuard (midIt path qp bs L [] n b
              (sCur pages i)) = false := by
            simp [loopGuard, midIt, hL, hn]
          unfold Iterator.iterAux
          rw [if_neg (by simp [hg])]
          refine ⟨midIt path qp bs L [] n b (sCur pages i), ?_⟩
          rw [takeBudget_stop _ _ _ hL (by omega)]
          rfl
      · have hsc : sCur pages i = none := by
          unfold sCur
          rw [if_neg hpl]
        have hg : loopGuard (midIt path qp bs L [] n b
            (sCur pages i)) = false := by
          rw [hsc]
          simp [loopGuard, midIt, optTruthy]
        unfold Iterator.iterAux
        rw [if_neg (by simp [hg])]
        refine ⟨midIt path qp bs L [] n b (sCur pages i), ?_⟩
        rw [flatten_drop_over pages (i + 1) hpl, List.nil_append,
          takeBudget_nil]
        rfl

theorem init_none_ok (path : String) (qp : List (String × Json))
    (L : Option Nat) (bs : Nat) (st0 : Iterator)
    (h : Iterator.init path qp none L bs = .ok st0) :
    st0 = mkFresh path qp L bs
    ∧ qp.find? (fun p => p.1 == "cursor") = none
    ∧ qp.find? (fun p => p.1 == "limit") = none := by
  cases hc : qp.find? (fun p => p.1 == "cursor") with
  | some v => simp [Iterator.init, hc] at h
  | none =>
    cases hl : qp.find? (fun p => p.1 == "limit") with
    | some v => simp [Iterator.init, hc, hl] at h
    | none =>
      simp [Iterator.init, hc, hl] at h
      exact ⟨h.symm, rfl, rfl⟩

theorem iterRun_fresh (pages : List (List Json)) (path : String)
    (qp : List (String × Json)) (bs : Nat) (L : Option Nat) (fuel : Nat)
    (hq : qp.find? (fun p => p.1 == "cursor") = none)
    (hne : ∀ p ∈ pages, p ≠ [])
    (hfuel : pages.flatten.length + 1 ≤ fuel) :
    ∃ itf,
      Iterator.iterRun (serverOfPages pages) fuel (mkFresh path qp L bs)
        = ((takeBudget L 0 pages.flatten).map Object.from_dict, itf,
           RunOut.finished) := by
  unfold Iterator.iterRun
  rw [if_pos (show (((mkFresh path qp L bs).items.isEmpty
    && (mkFresh path qp L bs).count == 0) = true) by rfl)]
  have hcur : lookupParam (mkFresh path qp L bs).build_params "cursor" = none :=
    build_params_cursor_none _ (by rfl) hq
  have hgb : Iterator.get_batch (serverOfPages pages) (mkFresh path qp L bs) 0
      = .ok (pageData pages 0, sCur pages 0) := by
    rw [get_batch_pages_fresh pages _ 0 hcur, List.drop_zero]
  rw [hgb]
  obtain ⟨itf, hrec⟩ :=
    iterAux_pages_run pages path qp bs L hne fuel 0 0 0 (pageData pages 0)
      (by rw [flatten_head pages]; exact hfuel)
  rw [flatten_head pages] at hrec
  refine ⟨itf, ?_⟩
  simp only [midIt, mkFresh] at hrec ⊢
  exact hrec

theorem next_nofresh (srv : Server) (it : Iterator)
    (hfresh : (it.items.isEmpty && it.count == 0) = false) :
    Iterator.next srv it
      = (if limitTruthy it.limit then
          (if (it.items.isEmpty && !(it.count == 0))
              || decide (it.limit.getD 0 ≤ it.count) then
            (.error .stopIteration, it)
          else Iterator.popStep it)
        else
          (if it.items.isEmpty && !(it.count == 0) then
            (.error .stopIteration, it)
          else Iterator.popStep it)) := by
  unfold Iterator.next
  rw [if_neg (by simp [hfresh])]

theorem popStep_no_stop (it : Iterator)
    (h : (Iterator.popStep it).1 = .error .stopIteration) : False := by
  cases hit : it.items with
  | nil =>
    unfold Iterator.popStep at h
    rw [hit] at h
    simp at h
  | cons a l =>
    rw [popStep_cons it a l hit] at h
    simp at h

theorem next_stop_iff (srv : Server) (it : Iterator)
    (hfresh : (it.items.isEmpty && it.count == 0) = false) :
    ((Iterator.next srv it).1 = .error .stopIteration
      ↔ ((it.items.isEmpty = true ∧ 0 < it.count)
          ∨ (limitTruthy it.limit = true ∧ it.limit.getD 0 ≤ it.count))) := by
  rw [next_nofresh srv it hfresh]
  by_cases hL : limitTruthy it.limit = true
  · rw [if_pos hL]
    by_cases hstop : ((it.items.isEmpty && !(it.count == 0))
        || decide (it.limit.getD 0 ≤ it.count)) = true
    · rw [if_pos hstop]
      constructor
      · intro _
        rcases (by simpa using hstop : (it.items.isEmpty = true
            ∧ ¬it.count = 0) ∨ it.limit.getD 0 ≤ it.count) with h | h
        · exact Or.inl ⟨h.1, Nat.pos_of_ne_zero h.2⟩
        · exact Or.inr ⟨hL, h⟩
      · intro _
        rfl
    · rw [if_neg hstop]
      constructor
      · intro hres
        exact absurd hres (fun hres => popStep_no_stop it hres)
      · intro hrhs
        exfalso
        have hstop2 : ¬((it.items.isEmpty = true ∧ ¬it.count = 0)
            ∨ it.limit.getD 0 ≤ it.count) := by
          intro hx
          exact hstop (by simpa using hx)
        rcases hrhs with ⟨h1, h2⟩ | ⟨h1, h2⟩
        · exact hstop2 (Or.inl ⟨h1, by omega⟩)
        · exact hstop2 (Or.inr h2)
  · rw [if_neg hL]
    by_cases hstop : (it.items.isEmpty && !(it.count == 0)) = true
    · rw [if_pos hstop]
      constructor
      · intro _
        have h := (by simpa using hstop : it.items.isEmpty = true
            ∧ ¬it.count = 0)
        exact Or.inl ⟨h.1, Nat.pos_of_ne_zero h.2⟩
      · intro _
        rfl
    · rw [if_neg hstop]
      constructor
      · intro hres
        exact absurd hres (fun hres => popStep_no_stop it hres)
      · intro hrhs
        exfalso
        rcases hrhs with ⟨h1, h2⟩ | ⟨h1, h2⟩
        · exact hstop (by simp [h1]; omega)
        · exact absurd h1 (by simp [hL])

/-- C2 amended: (1) full-sequence production — for every collection whose
pages are nonempty, every `overall_limit = L ≥ 1` and enough fuel, a fresh
iterator's `__iter__` run finishes normally and yields exactly the first
`min(L, total_available)` records, in order; (2) manual single-step
advancement on a non-fresh state signals end-of-sequence exactly when the
buffer is empty with at least one item produced (even if a server cursor to
more items is held — `__next__` never re-fetches) or the produced count has
reached the limit. -/
theorem c2_limit_enforcement_amended :
    (∀ (pages : List (List Json)) (path : String) (qp : List (String × Json))
      (bs L fuel : Nat) (st0 : Iterator),
      (∀ p ∈ pages, p ≠ []) →
      Iterator.init path qp none (some L) bs = .ok st0 →
      1 ≤ L →
      pages.flatten.length + 1 ≤ fuel →
      ∃ itf,
        Iterator.iterRun (serverOfPages pages) fuel st0
          = ((pages.flatten.take L).map Object.from_dict, itf,
             RunOut.finished)
        ∧ ((pages.flatten.take L).map Object.from_dict).length
            = min L pages.flatten.length)
    ∧ (∀ (srv : Server) (it : Iterator),
        (it.items.isEmpty && it.count == 0) = false →
        ((Iterator.next srv it).1 = .error .stopIteration
          ↔ ((it.items.isEmpty = true ∧ 0 < it.count)
              ∨ (limitTruthy it.limit = true
                ∧ it.limit.getD 0 ≤ it.count)))) := by
  constructor
  · intro pages path qp bs L fuel st0 hne hinit hL hfuel
    obtain ⟨hst0, hq, hql⟩ := init_none_ok path qp (some L) bs st0 hinit
    subst hst0
    obtain ⟨itf, hrun⟩ := iterRun_fresh pages path qp bs (some L) fuel hq hne
      hfuel
    have hbt : takeBudget (some L) 0 pages.flatten = pages.flatten.take L := by
      unfold takeBudget
      rw [if_pos (show limitTruthy (some L) = true by
        simp [limitTruthy]
        omega)]
      simp
    rw [hbt] at hrun
    refine ⟨itf, hrun, ?_⟩
    rw [List.length_map, List.length_take]
  · exact next_stop_iff

theorem c2_limit_enforcement_amended_witness :
    (∃ itf,
      Iterator.iterRun (serverOfPages twoPages) 10 (mkFresh "w" [] (some 2) 0)
        = ((twoPages.flatten.take 2).map Object.from_dict, itf,
           RunOut.finished)
      ∧ ((twoPages.flatten.take 2).map Object.from_dict).length
          = min 2 twoPages.flatten.length)
    ∧ ((Iterator.next (serverOfPages twoPages)
          (midIt "w" [] 0 (some 2) [] 5 5 (some "c"))).1
        = .error .stopIteration
      ↔ (((midIt "w" [] 0 (some 2) [] 5 5 (some "c")).items.isEmpty = true
            ∧ 0 < (midIt "w" [] 0 (some 2) [] 5 5 (some "c")).count)
          ∨ (limitTruthy (midIt "w" [] 0 (some 2) [] 5 5 (some "c")).limit
              = true
            ∧ (midIt "w" [] 0 (some 2) [] 5 5 (some "c")).limit.getD 0
                ≤ (midIt "w" [] 0 (some 2) [] 5 5 (some "c")).count))) :=
  ⟨c2_limit_enforcement_amended.1 twoPages "w" [] 0 2 10
      (mkFresh "w" [] (some 2) 0)
      (by
        intro p hp
        simp [twoPages] at hp
        rcases hp with h | h <;> subst h <;> simp)
      rfl (by omega) (by decide),
   c2_limit_enforcement_amended.2 (serverOfPages twoPages)
     (midIt "w" [] 0 (some 2) [] 5 5 (some "c")) rfl⟩

theorem ghostInv_seed (srv : Server) (it : Iterator)
    (gm : Nat × Option (Option String)) (h : GhostInv it gm.1 gm.2) :
    GhostInv (Iterator.seed srv it) (seedGhost srv it gm).1
      (seedGhost srv it gm).2 := by
  obtain ⟨hb, hc0, hsc⟩ := h
  unfold GhostInv Iterator.seed seedGhost
  by_cases hf : (it.items.isEmpty && it.count == 0) = true
  · rw [if_pos hf, if_pos hf]
    have hcnt : it.count = 0 := by
      have h2 := (Bool.and_eq_true _ _).mp hf
      simpa using h2.2
    cases hgb : Iterator.get_batch srv it 0 with
    | error e => exact ⟨hb, hc0, hsc⟩
    | ok pair =>
      obtain ⟨ni, nc⟩ := pair
      dsimp only
      exact ⟨hb, fun _ => hc0 hcnt, rfl⟩
  · rw [if_neg hf, if_neg hf]
    exact ⟨hb, hc0, hsc⟩

theorem ghostInv_iterate (srv : Server) (it : Iterator)
    (gm : Nat × Option (Option String)) (h : GhostInv it gm.1 gm.2) :
    GhostInv (Iterator.iterate srv it).2 (iterateGhost srv it gm).1
      (iterateGhost srv it gm).2 := by
  obtain ⟨hb, hc0, hsc⟩ := h
  unfold GhostInv Iterator.iterate iterateGhost
  cases hit : it.items with
  | nil =>
    have hlen : ((([] : List Json)).length == 0) = true := rfl
    rw [if_pos hlen, if_pos hlen]
    cases hgb : Iterator.get_batch srv it 0 with
    | error e => exact ⟨hb, hc0, hsc⟩
    | ok pair =>
      obtain ⟨ni, nc⟩ := pair
      cases hni : ni with
      | nil =>
        dsimp only [Iterator.popStep]
        exact ⟨rfl, fun _ => rfl, rfl⟩
      | cons y ys =>
        dsimp only [Iterator.popStep]
        exact ⟨rfl, fun hcc => absurd hcc (Nat.succ_ne_zero _), rfl⟩
  | cons x rest =>
    have hlen : (((x :: rest : List Json)).length == 0) = false := by simp
    rw [if_neg (by simp [hlen]), if_neg (by simp [hlen])]
    rw [popStep_cons it x rest hit]
    dsimp only
    exact ⟨congrArg (fun z => z + 1) hb,
      fun hcc => absurd hcc (Nat.succ_ne_zero _), hsc⟩

theorem limitTruthy_pos (L : Option Nat) (h : limitTruthy L = true) :
    0 < L.getD 0 := by
  cases L with
  | none => simp [limitTruthy] at h
  | some l =>
    simp [limitTruthy] at h
    simpa using Nat.pos_of_ne_zero h

theorem ghostInv_next (srv : Server) (it : Iterator)
    (gm : Nat × Option (Option String)) (h : GhostInv it gm.1 gm.2) :
    GhostInv (Iterator.next srv it).2 (nextGhost srv it gm).1
      (nextGhost srv it gm).2 := by
  obtain ⟨hb, hc0, hsc⟩ := h
  unfold GhostInv
  by_cases hf : (it.items.isEmpty && it.count == 0) = true
  · have hcnt : it.count = 0 := by
      have h2 := (Bool.and_eq_true _ _).mp hf
      simpa using h2.2
    have hg0 : gm.1 = 0 := hc0 hcnt
    have hbc : it.batch_cursor = 0 := by rw [hb, hg0]
    unfold Iterator.next nextGhost
    rw [if_pos hf, if_pos hf]
    cases hgb : Iterator.get_batch srv it 0 with
    | error e => exact ⟨hb, hc0, hsc⟩
    | ok pair =>
      obtain ⟨ni, nc⟩ := pair
      dsimp only
      by_cases hL : limitTruthy it.limit = true
      · rw [if_pos hL]
        have hguard : ((ni.isEmpty && !(it.count == 0))
            || decide (it.limit.getD 0 ≤ it.count)) = false := by
          have hLpos := limitTruthy_pos it.limit hL
          simp [hcnt]
          omega
        rw [if_neg (by simp [hguard])]
        cases hni : ni with
        | nil => exact ⟨hbc, fun _ => rfl, rfl⟩
        | cons y ys =>
          dsimp only [Iterator.popStep]
          exact ⟨by simp [hbc], fun hcc => absurd hcc (Nat.succ_ne_zero _),
            rfl⟩
      · rw [if_neg hL]
        have hguard : (ni.isEmpty && !(it.count == 0)) = false := by
          simp [hcnt]
        rw [if_neg (by simp [hguard])]
        cases hni : ni with
        | nil => exact ⟨hbc, fun _ => rfl, rfl⟩
        | cons y ys =>
          dsimp only [Iterator.popStep]
          exact ⟨by simp [hbc], fun hcc => absurd hcc (Nat.succ_ne_zero _),
            rfl⟩
  · have hf2 : (it.items.isEmpty && it.count == 0) = false :=
      Bool.eq_false_iff.mpr hf
    unfold nextGhost
    rw [if_neg hf]
    rw [next_nofresh srv it hf2]
    by_cases hL : limitTruthy it.limit = true
    · rw [if_pos hL]
      by_cases hstop : ((it.items.isEmpty && !(it.count == 0))
          || decide (it.limit.getD 0 ≤ it.count)) = true
      · rw [if_pos hstop]
        exact ⟨hb, hc0, hsc⟩
      · rw [if_neg hstop]
        cases hit : it.items with
        | nil =>
          exfalso
          apply hstop
          have hcz : ¬ it.count = 0 := by
            intro hc
            simp [hit, hc] at hf2
          simp [hit, hcz]
        | cons x rest =>
          rw [popStep_cons it x rest hit]
          dsimp only
          exact ⟨congrArg (fun z => z + 1) hb,
            fun hcc => absurd hcc (Nat.succ_ne_zero _), hsc⟩
    · rw [if_neg hL]
      by_cases hstop : (it.items.isEmpty && !(it.count == 0)) = true
      · rw [if_pos hstop]
        exact ⟨hb, hc0, hsc⟩
      · rw [if_neg hstop]
        cases hit : it.items with
        | nil =>
          exfalso
          apply hstop
          have hcz : ¬ it.count = 0 := by
            intro hc
            simp [hit, hc] at hf2
          simp [hit, hcz]
        | cons x rest =>
          rw [popStep_cons it x rest hit]
          dsimp only
          exact ⟨congrArg (fun z => z + 1) hb,
            fun hcc => absurd hcc (Nat.succ_ne_zero _), hsc⟩

theorem ghostInv_step (srv : Server)
    (a b : Iterator × Nat × Option (Option String))
    (hab : Relation.ReflTransGen (Step srv) a b)
    (ha : GhostInv a.1 a.2.1 a.2.2) : GhostInv b.1 b.2.1 b.2.2 := by
  induction hab with
  | refl => exact ha
  | tail hxy hstep ih =>
    cases hstep with
    | next it gm => exact ghostInv_next srv it gm ih
    | iterate it gm => exact ghostInv_iterate srv it gm ih
    | seed it gm => exact ghostInv_seed srv it gm ih

/-- C4 amended: for every iterator constructed WITHOUT a resumption cursor,
at every observation point reachable by any interleaving of `__next__`,
`_iterate` and the `__iter__` seeding fetch (the async surfaces are the same
functions), `_batch_cursor` equals the number of items produced since
`_server_cursor` was last assigned (ghost `g`), and `_server_cursor` equals
the cursor delivered by the last successful fetch (ghost `m`; `none` before
any fetch); hence `_server_cursor` is `None` only if no fetch ever succeeded
or the last fetch's `meta.cursor` was absent (the end-of-collection
signal). -/
theorem c4_state_invariant_amended :
    ∀ (srv : Server) (path : String) (qp : List (String × Json))
      (L : Option Nat) (bs : Nat) (st0 st : Iterator) (g : Nat)
      (m : Option (Option String)),
      Iterator.init path qp none L bs = .ok st0 →
      Relation.ReflTransGen (Step srv) (st0, 0, none) (st, g, m) →
      st.batch_cursor = g
      ∧ st.server_cursor = joinOpt m
      ∧ (st.count = 0 → g = 0)
      ∧ (st.server_cursor = none → m = none ∨ m = some none) := by
  intro srv path qp L bs st0 st g m hinit hreach
  obtain ⟨hst0, hq, hql⟩ := init_none_ok path qp L bs st0 hinit
  subst hst0
  have hinv : GhostInv st g m :=
    ghostInv_step srv (mkFresh path qp L bs, 0, none) (st, g, m) hreach
      ⟨rfl, fun _ => rfl, rfl⟩
  obtain ⟨h1, h2, h3⟩ := hinv
  refine ⟨h1, h3, h2, ?_⟩
  intro hnone
  cases m with
  | none => exact Or.inl rfl
  | some c =>
    right
    rw [h3] at hnone
    rw [show joinOpt (some c) = c from rfl] at hnone
    rw [hnone]

theorem c4_state_invariant_amended_witness :
    (mkFresh "v" [] none 0).batch_cursor = 0
    ∧ (mkFresh "v" [] none 0).server_cursor = joinOpt none
    ∧ ((mkFresh "v" [] none 0).count = 0 → 0 = 0)
    ∧ ((mkFresh "v" [] none 0).server_cursor = none →
        (none : Option (Option String)) = none
        ∨ (none : Option (Option String)) = some none) :=
  c4_state_invariant_amended (serverOfPages []) "v" [] none 0
    (mkFresh "v" [] none 0) (mkFresh "v" [] none 0) 0 none rfl
    Relation.ReflTransGen.refl
